import Mathlib

/-!
Verification of the session-orchestration frontend of `new_logic_auth`.

The definitions below are shallow embeddings of the JavaScript source under
`frontend/src/utils/auth.js`, `frontend/src/utils/api.js`,
`frontend/src/components/LoginModal.js` and `frontend/src/App.js`.
JS strings are modelled as Lean `String`/`List Char`, 32-bit signed integer
arithmetic as `Int` wrapped with an explicit modulus, promises as explicit
state passing, and the in-memory module-level mutable state
(`authCache`, `sessionFingerprint`) as an explicit `ClientState` record.

The backend (session store, device-login orchestrator, role resolver) is not
part of the sources; where a claim depends on it, the component is modelled
from the specification and marked as such in its doc comment.
-/

/-! ## JS string helpers -/

/-- Prefix test on character lists, mirroring how `String.prototype.includes`
scans the subject string. -/
def startsWith : List Char → List Char → Bool
  | [], _ => true
  | _ :: _, [] => false
  | p :: ps, c :: cs => p == c && startsWith ps cs

/-- Scan of every suffix, the search loop behind `includes`. -/
def includesAux (pat : List Char) : List Char → Bool
  | [] => startsWith pat []
  | c :: cs => startsWith pat (c :: cs) || includesAux pat cs

/-- JS `String.prototype.includes`: substring containment. -/
def strIncludes (s pat : String) : Bool :=
  includesAux pat.toList s.toList

/-! ## Fingerprint codec (`generateFingerprint`, auth.js lines 32-59) -/

/-- JS `ToInt32` coercion: wrap an integer into the signed 32-bit range,
the effect of `hash = hash & hash` and of the `<<` operator's result. -/
def toInt32 (x : Int) : Int :=
  (x + 2 ^ 31) % 2 ^ 32 - 2 ^ 31

/-- One iteration of the loop
`hash = ((hash << 5) - hash) + char; hash = hash & hash;`.
`hash << 5` is itself an int32 operation, so the shift wraps before the
subtraction; the final `& hash` wraps the sum. -/
def jsHashStep (h : Int) (c : Nat) : Int :=
  toInt32 (toInt32 (h * 32) - h + c)

/-- The full string-hash loop of `generateFingerprint`, over UTF-16 code
units (`charCodeAt`); for the BMP characters appearing here these coincide
with the code points `Char.toNat` yields. -/
def jsHash (codes : List Nat) : Int :=
  codes.foldl jsHashStep 0

/-- The base64 alphabet used by `btoa`. -/
def b64Alphabet : List Char :=
  "ABCDEFGHIJKLMNOPQRSTUVWXYZabcdefghijklmnopqrstuvwxyz0123456789+/".toList

/-- Character of the base64 alphabet at a 6-bit index. -/
def b64Char (n : Nat) : Char :=
  b64Alphabet.getD n 'A'

/-- JS `btoa` on a list of byte values: groups of three bytes become four
alphabet characters, a trailing group of one or two bytes is padded with
`=`. -/
def base64Encode : List Nat → List Char
  | [] => []
  | [a] => [b64Char (a / 4), b64Char (a % 4 * 16), '=', '=']
  | [a, b] => [b64Char (a / 4), b64Char (a % 4 * 16 + b / 16), b64Char (b % 16 * 4), '=']
  | a :: b :: c :: rest =>
      b64Char (a / 4) :: b64Char (a % 4 * 16 + b / 16) ::
        b64Char (b % 16 * 4 + c / 64) :: b64Char (c % 64) :: base64Encode rest

/-- The browser characteristics read by `generateFingerprint`
(`navigator.*`, `window.screen.*`, `getTimezoneOffset`). -/
structure BrowserChars where
  userAgent : String
  language : String
  platform : String
  hardwareConcurrency : Nat
  screenWidth : Nat
  screenHeight : Nat
  colorDepth : Nat
  timezoneOffset : Int
  deriving DecidableEq

/-- The `components.join('-')` string; the last component is the
per-invocation random salt `Math.random().toString(36).substring(2, 15)`,
passed here explicitly. -/
def joinComponents (b : BrowserChars) (rand : String) : String :=
  String.intercalate "-"
    [b.userAgent, b.language, b.platform, toString b.hardwareConcurrency,
      toString b.screenWidth, toString b.screenHeight, toString b.colorDepth,
      toString b.timezoneOffset, rand]

/-- `generateFingerprint` (auth.js lines 32-59): hash the joined components
with the 32-bit string hash, print the absolute value in decimal, base64
encode it and keep at most 32 characters. -/
def generateFingerprint (b : BrowserChars) (rand : String) : String :=
  let fingerprint := joinComponents b rand
  let h := jsHash (fingerprint.toList.map Char.toNat)
  String.mk ((base64Encode ((toString h.natAbs).toList.map Char.toNat)).take 32)

/-! ## Client auth state (auth.js) -/

/-- The user object served by `/api/check-auth`; `roles` is `none` when the
field is absent (`!user.roles` in JS). -/
structure User where
  email : String
  username : Option String
  roles : Option (List String)
  deriving DecidableEq

/-- The auth payload `{authenticated, user, csrf_token}`. -/
structure AuthData where
  authenticated : Bool
  user : Option User
  csrfToken : Option String
  deriving DecidableEq

/-- The module-level `authCache` object of auth.js (lines 16-21).
`checkPromise` models an in-flight check by the value it will resolve
to. -/
structure AuthCache where
  user : Option User
  csrfToken : Option String
  lastChecked : Option Nat
  checkPromise : Option (Option AuthData)
  deriving DecidableEq

/-- The whole mutable module state of auth.js: `authCache` plus the
memoized `sessionFingerprint` (line 67). -/
structure ClientState where
  cache : AuthCache
  sessionFingerprint : Option String
  deriving DecidableEq

/-- CACHE_DURATION (auth.js line 24): 30 seconds in milliseconds. -/
def CACHE_DURATION : Nat := 30000

/-- clearAuthCache (auth.js lines 202-210): resets every `authCache` field
to null and discards the memoized fingerprint. -/
def clearAuthCache (_s : ClientState) : ClientState :=
  { cache := { user := none, csrfToken := none, lastChecked := none, checkPromise := none },
    sessionFingerprint := none }

/-- getFingerprint (auth.js lines 68-73): memoize the first generated
fingerprint in `sessionFingerprint`. The browser characteristics and the
random salt consumed on a miss are explicit arguments. -/
def getFingerprint (s : ClientState) (b : BrowserChars) (rand : String) :
    String × ClientState :=
  match s.sessionFingerprint with
  | some fp => (fp, s)
  | none =>
      let fp := generateFingerprint b rand
      (fp, { s with sessionFingerprint := some fp })

/-- A sequence of `getFingerprint` calls, threading the module state;
returns the list of results. -/
def runGetFingerprints (s : ClientState) :
    List (BrowserChars × String) → List String × ClientState
  | [] => ([], s)
  | (b, rand) :: rest =>
      let (fp, s1) := getFingerprint s b rand
      let (fps, s2) := runGetFingerprints s1 rest
      (fp :: fps, s2)

/-- The possible outcomes of the `fetch('/api/check-auth')` round trip in
`performAuthCheck`: a 2xx body, a 401, any other status, or a network
error (the last two take the same branch shape). -/
inductive CheckResponse where
  | ok (data : AuthData)
  | status401
  | otherFailure
  deriving DecidableEq

/-- performAuthCheck (auth.js lines 165-196): on success update the cache
(`data.user || null`, `data.csrf_token || null`, `Date.now()`) and return
the data; on 401 clear the cache and return null; otherwise leave state
untouched and return null. -/
def performAuthCheck (s : ClientState) (resp : CheckResponse) (now : Nat) :
    ClientState × Option AuthData :=
  match resp with
  | .ok data =>
      ({ s with cache :=
          { s.cache with
              user := data.user,
              csrfToken := data.csrfToken,
              lastChecked := some now } },
        some data)
  | .status401 => (clearAuthCache s, none)
  | .otherFailure => (s, none)

/-- Freshness test of auth.js lines 133-135: a recorded `lastChecked` whose
age is below `CACHE_DURATION`. JS computes a possibly negative difference;
truncated `Nat` subtraction agrees with it on the comparison's outcome. -/
def cacheFresh (c : AuthCache) (now : Nat) : Bool :=
  match c.lastChecked with
  | none => false
  | some t => decide (now - t < CACHE_DURATION)

/-- checkAuthWithServer (auth.js lines 131-158). Returns the new state, the
auth data, and whether a network request was issued by this call. A fresh
cache short-circuits with the cached triple; an in-flight check is awaited
instead of issuing a second request; otherwise `performAuthCheck` runs
(the transient `checkPromise` assignment is cleared in `finally`, so its
net effect on the state is nil). -/
def checkAuthWithServer (s : ClientState) (forceRefresh : Bool) (now : Nat)
    (resp : CheckResponse) : ClientState × Option AuthData × Bool :=
  if !forceRefresh && cacheFresh s.cache now then
    (s, some { authenticated := s.cache.user.isSome,
               user := s.cache.user,
               csrfToken := s.cache.csrfToken }, false)
  else
    match s.cache.checkPromise with
    | some pending => (s, pending, false)
    | none =>
        let (s1, r) := performAuthCheck s resp now
        (s1, r, true)

/-- getCSRFToken (auth.js lines 114-122): the `csrf_token` field of the
check result, null on failure. -/
def getCSRFToken (s : ClientState) (forceRefresh : Bool) (now : Nat)
    (resp : CheckResponse) : ClientState × Option String :=
  let (s1, r, _) := checkAuthWithServer s forceRefresh now resp
  (s1, match r with
       | some d => d.csrfToken
       | none => none)

/-! ## Role gating (auth.js `hasRole`, App.js / part_003 `ProtectedRoute`) -/

/-- The `string | string[]` argument of `hasRole`. -/
inductive RolesArg where
  | one (r : String)
  | many (rs : List String)
  deriving DecidableEq

/-- The normalization `Array.isArray(roles) ? roles : [roles]`. -/
def normalizeRoles : RolesArg → List String
  | .one r => [r]
  | .many rs => rs

/-- hasRole (auth.js lines 237-243): false without a user or a roles field;
otherwise `requiredRoles.some(role => user.roles.includes(role))`. The
user argument stands for the awaited `getCurrentUser()` result. -/
def hasRole (user : Option User) (roles : RolesArg) : Bool :=
  match user with
  | none => false
  | some u =>
      match u.roles with
      | none => false
      | some userRoles =>
          (normalizeRoles roles).any (fun r => userRoles.contains r)

/-- What a `ProtectedRoute` render resolves to. -/
inductive RouteResult where
  | navigateHome
  | accessDenied
  | content
  deriving DecidableEq

/-- ProtectedRoute (App.js lines 93-110): redirect when unauthenticated,
deny without a user, deny when a non-empty `requiredRoles` has no member
in `currentUser.roles` (optional chaining: an absent roles field fails
every membership test), otherwise render the children. -/
def protectedRoute (authenticated : Bool) (currentUser : Option User)
    (requiredRoles : List String) : RouteResult :=
  if !authenticated then .navigateHome
  else
    match currentUser with
    | none => .accessDenied
    | some u =>
        if requiredRoles.length > 0 &&
            !(requiredRoles.any (fun r =>
                match u.roles with
                | none => false
                | some rs => rs.contains r)) then
          .accessDenied
        else .content

/-- ProtectedRoute of the part_003 variant (lines 154-192): same shape but
renders a login prompt when unauthenticated and additionally denies any
user whose `roles` list (defaulted to `[]`) is empty. -/
def protectedRouteV2 (authenticated : Bool) (currentUser : Option User)
    (requiredRoles : List String) : RouteResult :=
  if !authenticated then .navigateHome
  else
    match currentUser with
    | none => .accessDenied
    | some u =>
        let userRoles := u.roles.getD []
        if userRoles.length == 0 then .accessDenied
        else if requiredRoles.length > 0 &&
            !(requiredRoles.any (fun r => userRoles.contains r)) then
          .accessDenied
        else .content

/-! ## API instance (api.js) -/

/-- Case-sensitive header map, as axios stores plain string keys. -/
def setHeader (hs : List (String × String)) (k v : String) :
    List (String × String) :=
  if hs.any (fun p => p.1 == k) then
    hs.map (fun p => if p.1 == k then (k, v) else p)
  else hs ++ [(k, v)]

/-- Lookup of a header value. -/
def getHeader (hs : List (String × String)) (k : String) : Option String :=
  (hs.find? (fun p => p.1 == k)).map (fun p => p.2)

/-- JS `String.prototype.toUpperCase` restricted to the ASCII range the
HTTP method names live in: upper-case every character. -/
def jsToUpperCase (s : String) : String :=
  String.mk (s.toList.map Char.toUpper)

/-- The method test of api.js line 34:
`['POST', 'PUT', 'PATCH', 'DELETE'].includes(config.method.toUpperCase())`. -/
def isStateChanging (method : String) : Bool :=
  ["POST", "PUT", "PATCH", "DELETE"].contains (jsToUpperCase method)

/-- Request interceptor (api.js lines 31-45): on a state-changing method
fetch the CSRF token (`csrfToken` is the awaited `getCSRFToken()` result)
and, when one is available, set the `X-CSRF-Token` header; any other
method passes the config through untouched. -/
def requestInterceptor (method : String) (csrfToken : Option String)
    (headers : List (String × String)) : List (String × String) :=
  if isStateChanging method then
    match csrfToken with
    | some t => setHeader headers "X-CSRF-Token" t
    | none => headers
  else headers

/-- An axios request config as the response interceptor sees it: its
headers and the `_retry` marker (absent on a first attempt). -/
structure ReqConfig where
  headers : List (String × String)
  retryFlag : Bool
  deriving DecidableEq

/-- What the response-error interceptor resolves to: re-raise the error, or
re-issue the (marked) request. -/
inductive InterceptorAction where
  | passErr
  | retryWith (cfg : ReqConfig)
  deriving DecidableEq

/-- Response-error interceptor (api.js lines 48-88). `status` is
`error.response?.status` (none on a network error), `detail` the string
`error.response.data?.detail || ''`. On 401 the auth cache is cleared (the
redirect is UI glue). On a 403 whose detail mentions CSRF, auth state is
refreshed (`refreshAuth()`, i.e. a forced server check with outcome
`refreshResp` at time `now`) and, if the request is not yet marked
`_retry`, it is marked, its CSRF header is set to the freshly cached token
when one exists, and it is retried; every other path rejects. -/
def handleResponseError (s : ClientState) (status : Option Nat)
    (detail : String) (cfg : ReqConfig) (refreshResp : CheckResponse)
    (now : Nat) : ClientState × InterceptorAction :=
  let s1 := if status == some 401 then clearAuthCache s else s
  let csrfHit := status == some 403 && strIncludes detail "CSRF"
  let s2 := if csrfHit then (performAuthCheck s1 refreshResp now).1 else s1
  if csrfHit && !cfg.retryFlag then
    let fresh := (getCSRFToken s2 false now refreshResp).2
    let cfg1 : ReqConfig :=
      { retryFlag := true,
        headers := match fresh with
                   | some t => setHeader cfg.headers "X-CSRF-Token" t
                   | none => cfg.headers }
    (s2, .retryWith cfg1)
  else (s2, .passErr)

/-- Driver for one logical request: `respond` gives the server's answer to
each attempt (`none` is success, `some (status, detail)` an error); each
error runs the response interceptor, and a `retryWith` re-issues. Counts
the attempts made. The fuel is an upper bound on recursion only; the
interceptor's `_retry` marker is what actually stops the loop. -/
def runRequest (s : ClientState)
    (respond : ReqConfig → Option (Nat × String))
    (refreshResp : CheckResponse) (now : Nat) : Nat → ReqConfig → Nat
  | 0, _ => 0
  | fuel + 1, cfg =>
      match respond cfg with
      | none => 1
      | some (st, d) =>
          match (handleResponseError s (some st) d cfg refreshResp now).2 with
          | .passErr => 1
          | .retryWith cfg1 => 1 + runRequest s respond refreshResp now fuel cfg1

/-! ## Device-code login polling (LoginModal `pollAuthStatus`) -/

/-- A parsed `/api/authorize/status` body: the loose `status` string, the
`authorized` flag and the optional `message`. -/
structure StatusResponse where
  status : String
  authorized : Bool
  message : Option String
  deriving DecidableEq

/-- Terminal outcomes of the polling loop, one per `onError`/success site
in the modal. -/
inductive PollOutcome where
  | timeoutError
  | successLogin
  | completeFailed
  | notAuthorizedError
  | statusError
  | requestError
  deriving DecidableEq

/-- One poll body (LoginModal lines 79-114), after the status request
resolved to `resp` (`Except.error` is the catch branch). Returns `none` to
keep polling, or the outcome together with the number of
`completeAuth` (finalize) calls it made. `completeOk` tells whether the
`completeAuth` request would succeed. -/
def pollStep (resp : Except Unit StatusResponse) (completeOk : Bool) :
    Option (PollOutcome × Nat) :=
  match resp with
  | .error _ => some (.requestError, 0)
  | .ok st =>
      if st.status == "completed" then
        if st.authorized then
          if completeOk then some (.successLogin, 1) else some (.completeFailed, 1)
        else some (.notAuthorizedError, 0)
      else if st.status == "error" || st.status == "timeout" then
        some (.statusError, 0)
      else none

/-- maxAttempts (LoginModal line 69). -/
def maxAttempts : Nat := 60

/-- The recursive `poll` closure: guard `attempts >= maxAttempts`, issue
request number `attempts`, act on the body; `pending` increments `attempts`
and re-schedules. Returns the outcome, the number of status requests made,
and the number of finalize calls. Structural fuel stands for the
recursion; from the entry point it equals `maxAttempts - attempts`, so the
fuel-exhaustion branch coincides with the guard. -/
def pollLoopAux (responses : Nat → Except Unit StatusResponse)
    (completeOk : Bool) : Nat → Nat → PollOutcome × Nat × Nat
  | 0, _ => (.timeoutError, 0, 0)
  | fuel + 1, attempts =>
      if attempts ≥ maxAttempts then (.timeoutError, 0, 0)
      else
        match pollStep (responses attempts) completeOk with
        | some (o, c) => (o, 1, c)
        | none =>
            let r := pollLoopAux responses completeOk fuel (attempts + 1)
            (r.1, r.2.1 + 1, r.2.2)

/-- pollAuthStatus (LoginModal lines 67-118): the loop started with
`attempts = 0`. -/
def pollAuthStatus (responses : Nat → Except Unit StatusResponse)
    (completeOk : Bool) : PollOutcome × Nat × Nat :=
  pollLoopAux responses completeOk maxAttempts 0

/-! ## Backend session orchestration, modelled from the spec -/

/-- Modelled from the spec: the principal the identity provider returns on
completion (spec section 3, `PendingLogin.principal`); the backend source
(auth.py, session_manager.py, rbac.py) is not part of the provided
sources. -/
structure Principal where
  userId : String
  email : String
  tenantId : String
  groupIds : List String
  deriving DecidableEq

/-- Modelled from the spec: the group-to-role mapping table and optional
default role (spec sections 1 and 4.2). -/
structure RoleMapping where
  table : List (String × String)
  defaultRole : Option String
  deriving DecidableEq

/-- Modelled from the spec: the Role Resolver of section 4.2. For each
group ID present in the mapping add the mapped role (deduplicated); if no
group matches, return the default role as a singleton when configured and
the empty set otherwise. -/
def resolveRoles (m : RoleMapping) (groupIds : List String) : List String :=
  let mapped :=
    (groupIds.filterMap (fun g =>
      (m.table.find? (fun p => p.1 == g)).map (fun p => p.2))).dedup
  if mapped.isEmpty then
    match m.defaultRole with
    | some d => [d]
    | none => []
  else mapped

/-- Modelled from the spec: the `PendingLogin` state set (section 3). -/
inductive LoginState where
  | started
  | polling
  | completed
  | authorized
  | unauthorized
  | failed
  | expired
  deriving DecidableEq

/-- Modelled from the spec: a `PendingLogin` record (section 3). -/
structure PendingLogin where
  state : LoginState
  deviceCode : String
  verificationUri : String
  principal : Option Principal
  createdAt : Nat
  expiresAt : Nat
  deriving DecidableEq

/-- Modelled from the spec: a `SessionRecord` (section 3). -/
structure SessionRecord where
  sessionId : String
  fingerprintHash : String
  principalId : String
  email : String
  roles : List String
  csrfToken : String
  createdAt : Nat
  lastSeenAt : Nat
  expiresAt : Nat
  deriving DecidableEq

/-- Modelled from the spec: the two shared keyed stores, pending logins by
correlation ID and sessions by session ID (sections 3 and 5). -/
structure ServerState where
  pending : List (String × PendingLogin)
  sessions : List (String × SessionRecord)
  deriving DecidableEq

/-- Lookup of a pending login by correlation ID. -/
def lookupPending (s : ServerState) (cid : String) : Option PendingLogin :=
  (s.pending.find? (fun p => p.1 == cid)).map (fun p => p.2)

/-- Removal of a pending login (deletion on terminal states). -/
def removePending (s : ServerState) (cid : String) : ServerState :=
  { s with pending := s.pending.filter (fun p => !(p.1 == cid)) }

/-- Lookup of a session by session ID. -/
def lookupSession (s : ServerState) (sid : String) : Option SessionRecord :=
  (s.sessions.find? (fun p => p.1 == sid)).map (fun p => p.2)

/-- Session Store `Delete` (spec section 4.3): idempotent removal. -/
def deleteSession (s : ServerState) (sid : String) : ServerState :=
  { s with sessions := s.sessions.filter (fun p => !(p.1 == sid)) }

/-- In-place replacement of one session record. -/
def updateSession (s : ServerState) (sid : String) (r : SessionRecord) :
    ServerState :=
  { s with sessions := s.sessions.map (fun p => if p.1 == sid then (sid, r) else p) }

/-- Modelled from the spec: `Start` of the orchestrator (section 4.4):
create a `PendingLogin` in `STARTED` with
`expires_at = created_at + login_timeout`. -/
def startLogin (s : ServerState) (cid deviceCode uri : String)
    (now loginTimeout : Nat) : ServerState :=
  { s with pending :=
      (cid, { state := .started, deviceCode := deviceCode,
              verificationUri := uri, principal := none,
              createdAt := now, expiresAt := now + loginTimeout }) :: s.pending }

/-- Modelled from the spec: events the background worker receives from the
identity provider (section 4.4). -/
inductive ProviderEvent where
  | accepts
  | stillPending
  | approved (p : Principal)
  | denied
  | timedOut
  deriving DecidableEq

/-- Modelled from the spec: one transition by the background worker owning
a correlation ID (section 4.4): `STARTED to POLLING` on acceptance,
`POLLING` to `COMPLETED`/`FAILED`/`EXPIRED` on approval, denial or
deadline; anything else leaves the record unchanged. Sessions are never
touched by the worker. -/
def workerTransition (s : ServerState) (cid : String) (ev : ProviderEvent) :
    ServerState :=
  { s with pending := s.pending.map (fun p =>
      if p.1 == cid then
        (p.1,
          match p.2.state, ev with
          | .started, .accepts => { p.2 with state := .polling }
          | .polling, .stillPending => p.2
          | .polling, .approved pr =>
              { p.2 with state := .completed, principal := some pr }
          | .polling, .denied => { p.2 with state := .failed }
          | .polling, .timedOut => { p.2 with state := .expired }
          | _, _ => p.2)
      else p) }

/-- Errors of the finalize contract (spec section 4.4). -/
inductive FinalizeErr where
  | notCompleted
  | unauthorized
  | expired
  deriving DecidableEq

/-- Modelled from the spec: `Finalize(correlationID, fingerprintHash)`
(section 4.4). Only valid once `COMPLETED` is observed; resolves roles,
returns `ErrUnauthorized` and creates no session when they are empty
(deleting the pending record, now terminal `UNAUTHORIZED`); otherwise
creates the `SessionRecord` with a fresh session ID and CSRF token
(supplied as arguments, standing for the Cookie/Token Issuer) and deletes
the pending record (terminal `AUTHORIZED`). -/
def finalize (m : RoleMapping) (s : ServerState) (cid fpHash newSid newCsrf : String)
    (now ttl : Nat) : ServerState × Except FinalizeErr SessionRecord :=
  match lookupPending s cid with
  | none => (s, .error .notCompleted)
  | some pl =>
      match pl.state with
      | .completed =>
          let roles := resolveRoles m ((pl.principal.map Principal.groupIds).getD [])
          if roles.isEmpty then
            (removePending s cid, .error .unauthorized)
          else
            let record : SessionRecord :=
              { sessionId := newSid, fingerprintHash := fpHash,
                principalId := ((pl.principal.map Principal.userId).getD ""),
                email := ((pl.principal.map Principal.email).getD ""),
                roles := roles, csrfToken := newCsrf,
                createdAt := now, lastSeenAt := now, expiresAt := now + ttl }
            ({ pending := (removePending s cid).pending,
               sessions := (newSid, record) :: s.sessions }, .ok record)
      | .expired => (removePending s cid, .error .expired)
      | _ => (s, .error .notCompleted)

/-- Errors of the `Touch` contract (spec section 4.3). -/
inductive TouchErr where
  | notFound
  | fingerprintMismatch
  deriving DecidableEq

/-- Modelled from the spec: Session Store `Touch` (section 4.3): unknown ID
fails; a fingerprint mismatch deletes the record (fail-closed) before
erroring; a match slides `expires_at` and returns the record. -/
def touch (s : ServerState) (sid fpHash : String) (now ttl : Nat) :
    ServerState × Except TouchErr SessionRecord :=
  match lookupSession s sid with
  | none => (s, .error .notFound)
  | some r =>
      if r.fingerprintHash == fpHash then
        let r1 := { r with lastSeenAt := now, expiresAt := now + ttl }
        (updateSession s sid r1, .ok r1)
      else
        (deleteSession s sid, .error .fingerprintMismatch)

/-- Modelled from the spec: the server states reachable from the empty
store through start, worker transitions, finalize and touch. -/
inductive Reachable (m : RoleMapping) : ServerState → Prop where
  | init : Reachable m { pending := [], sessions := [] }
  | startStep {s : ServerState} (cid deviceCode uri : String) (now loginTimeout : Nat) :
      Reachable m s → Reachable m (startLogin s cid deviceCode uri now loginTimeout)
  | workerStep {s : ServerState} (cid : String) (ev : ProviderEvent) :
      Reachable m s → Reachable m (workerTransition s cid ev)
  | finalizeStep {s : ServerState} (cid fpHash newSid newCsrf : String) (now ttl : Nat) :
      Reachable m s → Reachable m (finalize m s cid fpHash newSid newCsrf now ttl).1
  | touchStep {s : ServerState} (sid fpHash : String) (now ttl : Nat) :
      Reachable m s → Reachable m (touch s sid fpHash now ttl).1

/-! ## Theorems -/

set_option maxRecDepth 8000

/-- A concrete set of browser characteristics used for evaluations. -/
def sampleChars : BrowserChars :=
  { userAgent := "Mozilla", language := "en", platform := "Linux",
    hardwareConcurrency := 4, screenWidth := 1920, screenHeight := 1080,
    colorDepth := 24, timezoneOffset := -60 }

/-- C7: counterexample. Two invocations of `generateFingerprint` on the same
browser characteristics but with the distinct per-call random salts the code
feeds in produce different digests, and the digest length is not fixed: the
salt "1000" yields a 9-digit hash and hence a 12-character base64 digest,
while the salt "abc" yields a 10-digit hash and a 16-character digest. This
refutes both the fixed-length and the equal-digests parts of the claim. -/
theorem c7_counterexample :
    generateFingerprint sampleChars "abc" ≠ generateFingerprint sampleChars "abd" ∧
    (generateFingerprint sampleChars "1000").length ≠
      (generateFingerprint sampleChars "abc").length := by
  decide

/-- C7 (amended): `generateFingerprint` is a deterministic pure function of
the joined component string, which includes a fresh random salt on every
invocation; equal joined strings give equal digests, and the digest length
is at most 32 characters but not one fixed length. The code has no
empty-input rejection. -/
theorem c7_generateFingerprint_amended (b b2 : BrowserChars) (rand rand2 : String) :
    (joinComponents b rand = joinComponents b2 rand2 →
      generateFingerprint b rand = generateFingerprint b2 rand2) ∧
    (generateFingerprint b rand).length ≤ 32 := by
  constructor
  · intro h
    simp only [generateFingerprint, h]
  · show (String.mk _).length ≤ 32
    simp [String.length, List.length_take]

/-- Characteristics whose dash-joined rendering collides with `charsB`. -/
def charsA : BrowserChars :=
  { userAgent := "Moz-x", language := "en", platform := "L",
    hardwareConcurrency := 1, screenWidth := 2, screenHeight := 3,
    colorDepth := 4, timezoneOffset := 0 }

/-- Characteristics whose dash-joined rendering collides with `charsA`. -/
def charsB : BrowserChars :=
  { userAgent := "Moz", language := "x-en", platform := "L",
    hardwareConcurrency := 1, screenWidth := 2, screenHeight := 3,
    colorDepth := 4, timezoneOffset := 0 }

/-- C7 (amended) witness: two distinct characteristic records whose joined
component strings coincide receive equal digests, of length at most 32. -/
theorem c7_generateFingerprint_amended_witness :
    joinComponents charsA "z" = joinComponents charsB "z" ∧
    generateFingerprint charsA "z" = generateFingerprint charsB "z" ∧
    (generateFingerprint charsA "z").length ≤ 32 :=
  ⟨by decide,
    (c7_generateFingerprint_amended charsA charsB "z" "z").1 (by decide),
    (c7_generateFingerprint_amended charsA charsB "z" "z").2⟩

/-- A concrete authenticated user holding the single role "user". -/
def sampleUser : User :=
  { email := "u@example.com", username := some "u", roles := some ["user"] }

/-- C1: counterexample. `hasRole` with an empty roles list returns false for
an authenticated user with roles (JS `[].some(...)` is false), while the
claim says it returns true for every authenticated user. -/
theorem c1_counterexample : hasRole (some sampleUser) (.many []) = false := by
  decide

/-- C1 (amended): `hasRole` succeeds exactly when the intersection of the
user's roles and the normalized required list is non-empty — so an empty
required list yields false — while `ProtectedRoute` with
`requiredRoles = []` renders the content for any authenticated principal
with a loaded user (the part_003 variant additionally requiring the user's
role list to be non-empty). -/
theorem c1_role_gate_amended (u : User) (arg : RolesArg) :
    (hasRole (some u) arg = true ↔
      ∃ r ∈ normalizeRoles arg, r ∈ u.roles.getD []) ∧
    protectedRoute true (some u) [] = .content ∧
    (u.roles.getD [] ≠ [] → protectedRouteV2 true (some u) [] = .content) := by
  refine ⟨?_, ?_, ?_⟩
  · cases hr : u.roles with
    | none => simp [hasRole, hr]
    | some rs => simp [hasRole, hr, List.any_eq_true, List.contains, List.elem_iff]
  · simp [protectedRoute]
  · intro h
    cases hr : u.roles with
    | none => simp [hr] at h
    | some rs =>
      rw [hr] at h
      simp only [Option.getD] at h
      simp [protectedRouteV2, hr, List.length_eq_zero, h]

/-- C1 (amended) witness: the sample user has a non-empty role list and the
part_003 `ProtectedRoute` with no role requirement renders the content for
it. -/
theorem c1_role_gate_amended_witness :
    sampleUser.roles.getD [] ≠ [] ∧
    protectedRouteV2 true (some sampleUser) [] = .content :=
  ⟨by decide, (c1_role_gate_amended sampleUser (.many [])).2.2 (by decide)⟩

/-- Setting a header makes it readable under its key, whatever the prior
header list contained. -/
theorem getHeader_setHeader (k v : String) :
    ∀ hs : List (String × String), getHeader (setHeader hs k v) k = some v := by
  intro hs
  induction hs with
  | nil => simp [setHeader, getHeader]
  | cons p ps ih =>
    by_cases hp : p.1 = k
    · simp [setHeader, getHeader, List.any_cons, hp, List.find?_cons]
    · by_cases hq : ps.any (fun q => q.1 == k)
      · rw [setHeader, if_pos (by simp [List.any_cons, hq])]
        rw [setHeader, if_pos (by exact hq)] at ih
        simpa [getHeader, List.find?_cons, hp] using ih
      · rw [setHeader, if_neg (by simp [List.any_cons, hp, hq])]
        rw [setHeader, if_neg (by simp [hq])] at ih
        simpa [getHeader, List.find?_cons, hp] using ih

/-- C5: every state-changing request (POST, PUT, PATCH, DELETE, in the
case-insensitive sense the interceptor applies) whose CSRF token is
available leaves the interceptor carrying an `X-CSRF-Token` header equal to
that token, while any request whose method upper-cases to GET passes
through with its headers untouched (so carries no such header when none was
present). -/
theorem c5_csrf_double_submit (method : String) (tok : String)
    (tok2 : Option String) (hs : List (String × String)) :
    (isStateChanging method = true →
      getHeader (requestInterceptor method (some tok) hs) "X-CSRF-Token" = some tok) ∧
    (jsToUpperCase method = "GET" → requestInterceptor method tok2 hs = hs) := by
  constructor
  · intro h
    simp only [requestInterceptor, h, if_true]
    exact getHeader_setHeader _ tok hs
  · intro h
    have : isStateChanging method = false := by
      simp [isStateChanging, h]
    simp [requestInterceptor, this]

/-- C5 witness: a lower-case "post" (as axios normalizes methods) gets the
available token as its `X-CSRF-Token` header, and a "get" request's headers
pass through unchanged. -/
theorem c5_csrf_double_submit_witness :
    isStateChanging "post" = true ∧
    getHeader (requestInterceptor "post" (some "tok") []) "X-CSRF-Token" = some "tok" ∧
    (jsToUpperCase "get" = "GET") ∧
    requestInterceptor "get" (some "tok") [("Accept", "application/json")] =
      [("Accept", "application/json")] :=
  ⟨by decide,
    (c5_csrf_double_submit "post" "tok" none []).1 (by decide),
    by decide,
    (c5_csrf_double_submit "get" "tok" (some "tok")
      [("Accept", "application/json")]).2 (by decide)⟩

/-- C6: a 401 observed either by the auth check itself or by the API
response interceptor resets the client auth state: cached user, CSRF token
and last-checked timestamp become null and the memoized session fingerprint
is discarded. -/
theorem c6_auth_failure_clears_state (s : ClientState) (now : Nat)
    (detail : String) (cfg : ReqConfig) (refreshResp : CheckResponse) :
    (performAuthCheck s .status401 now).1 = clearAuthCache s ∧
    (handleResponseError s (some 401) detail cfg refreshResp now).1 = clearAuthCache s ∧
    (clearAuthCache s).cache.user = none ∧
    (clearAuthCache s).cache.csrfToken = none ∧
    (clearAuthCache s).cache.lastChecked = none ∧
    (clearAuthCache s).sessionFingerprint = none := by
  refine ⟨rfl, ?_, rfl, rfl, rfl, rfl⟩
  simp [handleResponseError]

/-- Any config a `retryWith` action re-issues is marked `_retry`. -/
theorem handleResponseError_retry_marked (s : ClientState) (status : Option Nat)
    (detail : String) (cfg cfg1 : ReqConfig) (refreshResp : CheckResponse) (now : Nat)
    (h : (handleResponseError s status detail cfg refreshResp now).2 = .retryWith cfg1) :
    cfg1.retryFlag = true := by
  unfold handleResponseError at h
  by_cases hc : (status == some 403 && strIncludes detail "CSRF") && !cfg.retryFlag
  · rw [if_pos hc] at h
    cases h
    rfl
  · rw [if_neg hc] at h
    cases h

/-- A request already marked `_retry` is never retried again. -/
theorem handleResponseError_marked_passes (s : ClientState) (status : Option Nat)
    (detail : String) (cfg : ReqConfig) (refreshResp : CheckResponse) (now : Nat)
    (h : cfg.retryFlag = true) :
    (handleResponseError s status detail cfg refreshResp now).2 = .passErr := by
  unfold handleResponseError
  rw [if_neg]
  simp [h]

/-- A request whose config is already marked makes at most one further
attempt: its next failure is passed through, never retried. -/
theorem runRequest_marked_le_one (s : ClientState)
    (respond : ReqConfig → Option (Nat × String)) (refreshResp : CheckResponse)
    (now : Nat) :
    ∀ fuel cfg, cfg.retryFlag = true →
      runRequest s respond refreshResp now fuel cfg ≤ 1 := by
  intro fuel cfg h
  cases fuel with
  | zero => simp [runRequest]
  | succ fuel =>
    rw [runRequest]
    cases hresp : respond cfg with
    | none => simp
    | some sd =>
      obtain ⟨st, d⟩ := sd
      dsimp only
      rw [handleResponseError_marked_passes s (some st) d cfg refreshResp now h]

/-- Any logical request started unmarked makes at most two attempts. -/
theorem runRequest_le_two (s : ClientState)
    (respond : ReqConfig → Option (Nat × String)) (refreshResp : CheckResponse)
    (now : Nat) :
    ∀ fuel cfg, cfg.retryFlag = false →
      runRequest s respond refreshResp now fuel cfg ≤ 2 := by
  intro fuel cfg h
  cases fuel with
  | zero => simp [runRequest]
  | succ fuel =>
    rw [runRequest]
    cases hresp : respond cfg with
    | none => simp
    | some sd =>
      obtain ⟨st, d⟩ := sd
      dsimp only
      cases hact : (handleResponseError s (some st) d cfg refreshResp now).2 with
      | passErr => simp [hact]
      | retryWith cfg1 =>
        have h1 : cfg1.retryFlag = true :=
          handleResponseError_retry_marked s (some st) d cfg cfg1 refreshResp now hact
        have h2 : runRequest s respond refreshResp now fuel cfg1 ≤ 1 :=
          runRequest_marked_le_one s respond refreshResp now fuel cfg1 h1
        dsimp only
        omega

/-- C4: on a 403 whose detail carries the CSRF marker, an unmarked request
is marked and retried (with auth state refreshed through
`performAuthCheck`); a marked request is never retried; consequently any
logical request makes at most two attempts, whatever the server answers. -/
theorem c4_csrf_retry_once (s : ClientState) (refreshResp : CheckResponse) (now : Nat) :
    (∀ detail cfg, strIncludes detail "CSRF" = true → cfg.retryFlag = false →
      ∃ cfg1, (handleResponseError s (some 403) detail cfg refreshResp now).2 =
          .retryWith cfg1 ∧ cfg1.retryFlag = true ∧
        (handleResponseError s (some 403) detail cfg refreshResp now).1 =
          (performAuthCheck s refreshResp now).1) ∧
    (∀ status detail cfg, cfg.retryFlag = true →
      (handleResponseError s status detail cfg refreshResp now).2 = .passErr) ∧
    (∀ (respond : ReqConfig → Option (Nat × String)) fuel cfg,
      cfg.retryFlag = false →
      runRequest s respond refreshResp now fuel cfg ≤ 2) := by
  refine ⟨?_, ?_, ?_⟩
  · intro detail cfg hd hr
    simp [handleResponseError, hd, hr]
  · intro status detail cfg hr
    exact handleResponseError_marked_passes s status detail cfg refreshResp now hr
  · intro respond fuel cfg hr
    exact runRequest_le_two s respond refreshResp now fuel cfg hr

/-- C4 witness: a server that answers every attempt with a 403 CSRF
mismatch still leads to at most two attempts from an unmarked request. -/
theorem c4_csrf_retry_once_witness :
    ((⟨[], false⟩ : ReqConfig).retryFlag = false) ∧
    runRequest (clearAuthCache ⟨⟨none, none, none, none⟩, none⟩)
      (fun _ => some (403, "CSRF token mismatch")) .otherFailure 0 5 ⟨[], false⟩ ≤ 2 :=
  ⟨rfl,
    (c4_csrf_retry_once (clearAuthCache ⟨⟨none, none, none, none⟩, none⟩)
      .otherFailure 0).2.2 (fun _ => some (403, "CSRF token mismatch")) 5 ⟨[], false⟩ rfl⟩

/-- C9: with `forceRefresh = false` and a cache younger than
`CACHE_DURATION`, `checkAuthWithServer` returns the cached triple —
`authenticated` is the presence of a cached user — without touching state
or the network; conversely, a call that did issue a network request was
either forced or ran against a stale or empty cache. -/
theorem c9_cache_short_circuit (s : ClientState) (now : Nat) (resp : CheckResponse) :
    (cacheFresh s.cache now = true →
      checkAuthWithServer s false now resp =
        (s, some { authenticated := s.cache.user.isSome,
                   user := s.cache.user,
                   csrfToken := s.cache.csrfToken }, false)) ∧
    (∀ forceRefresh,
      (checkAuthWithServer s forceRefresh now resp).2.2 = true →
      forceRefresh = true ∨ cacheFresh s.cache now = false) := by
  constructor
  · intro h
    simp [checkAuthWithServer, h]
  · intro forceRefresh hnet
    by_cases hfr : forceRefresh = true
    · exact Or.inl hfr
    · right
      by_cases hfresh : cacheFresh s.cache now = true
      · exfalso
        have hfr' : forceRefresh = false := by
          cases forceRefresh
          · rfl
          · exact absurd rfl hfr
        rw [hfr'] at hnet
        simp [checkAuthWithServer, hfresh] at hnet
      · simpa using hfresh

/-- A concrete fresh client state for the C9 witness. -/
def freshState : ClientState :=
  { cache := { user := some sampleUser, csrfToken := some "tok",
               lastChecked := some 1000, checkPromise := none },
    sessionFingerprint := none }

/-- C9 witness: a call 5 seconds after the last check returns the cached
triple without a network request. -/
theorem c9_cache_short_circuit_witness :
    cacheFresh freshState.cache 6000 = true ∧
    checkAuthWithServer freshState false 6000 .otherFailure =
      (freshState, some { authenticated := true,
                          user := some sampleUser,
                          csrfToken := some "tok" }, false) :=
  ⟨by decide, (c9_cache_short_circuit freshState 6000 .otherFailure).1 (by decide)⟩

/-- After any `getFingerprint` call the memo holds exactly the value the
call returned. -/
theorem getFingerprint_memoizes (s : ClientState) (b : BrowserChars) (rand : String) :
    (getFingerprint s b rand).2.sessionFingerprint = some (getFingerprint s b rand).1 := by
  cases h : s.sessionFingerprint with
  | none => simp [getFingerprint, h]
  | some fp => simp [getFingerprint, h]

/-- While the memo holds a fingerprint, every further call returns it and
leaves the state unchanged. -/
theorem runGetFingerprints_const (fp : String) :
    ∀ (calls : List (BrowserChars × String)) (s : ClientState),
      s.sessionFingerprint = some fp →
      runGetFingerprints s calls = (List.replicate calls.length fp, s) := by
  intro calls
  induction calls with
  | nil => intro s h; simp [runGetFingerprints]
  | cons c rest ih =>
    intro s h
    obtain ⟨b, rand⟩ := c
    simp [runGetFingerprints, getFingerprint, h, ih s h,
      List.replicate_succ]

/-- C10: in any sequence of `getFingerprint` calls with no intervening
`clearAuthCache`, every call returns the first call's value (whatever
characteristics and salts the later calls would consume), and after
`clearAuthCache` the next call returns a freshly generated fingerprint. -/
theorem c10_fingerprint_idempotent (s : ClientState) (b : BrowserChars)
    (rand : String) (calls : List (BrowserChars × String)) :
    (runGetFingerprints (getFingerprint s b rand).2 calls).1 =
      List.replicate calls.length (getFingerprint s b rand).1 ∧
    (getFingerprint (clearAuthCache s) b rand).1 = generateFingerprint b rand := by
  constructor
  · rw [runGetFingerprints_const (getFingerprint s b rand).1 calls
      (getFingerprint s b rand).2 (getFingerprint_memoizes s b rand)]
  · simp [getFingerprint, clearAuthCache]

/-- The polling loop issues at most `fuel` status requests. -/
theorem pollLoopAux_requests_le (responses : Nat → Except Unit StatusResponse)
    (completeOk : Bool) :
    ∀ fuel attempts, (pollLoopAux responses completeOk fuel attempts).2.1 ≤ fuel := by
  intro fuel
  induction fuel with
  | zero => intro attempts; simp [pollLoopAux]
  | succ fuel ih =>
    intro attempts
    rw [pollLoopAux]
    by_cases h : attempts ≥ maxAttempts
    · simp [h]
    · rw [if_neg h]
      cases hs : pollStep (responses attempts) completeOk with
      | none =>
        dsimp only
        have := ih (attempts + 1)
        omega
      | some oc =>
        obtain ⟨o, c⟩ := oc
        dsimp only
        omega

/-- If every status response keeps the loop pending, the loop runs its
remaining budget down and times out. -/
theorem pollLoopAux_all_pending (responses : Nat → Except Unit StatusResponse)
    (completeOk : Bool)
    (hall : ∀ i, pollStep (responses i) completeOk = none) :
    ∀ fuel attempts, fuel + attempts = maxAttempts →
      pollLoopAux responses completeOk fuel attempts = (.timeoutError, fuel, 0) := by
  intro fuel
  induction fuel with
  | zero => intro attempts h; simp [pollLoopAux]
  | succ fuel ih =>
    intro attempts h
    rw [pollLoopAux, if_neg (by omega), hall attempts]
    dsimp only
    rw [ih (attempts + 1) (by omega)]

/-- If the first `k` responses keep the loop pending and response `k` is
terminal with outcome `o` (making `c` finalize calls), the loop returns
`o` after exactly `k + 1` requests and `c` finalize calls. -/
theorem pollLoopAux_first_terminal (responses : Nat → Except Unit StatusResponse)
    (completeOk : Bool) (o : PollOutcome) (c : Nat) :
    ∀ k attempts fuel, fuel + attempts = maxAttempts →
      (∀ i, i < k → pollStep (responses (attempts + i)) completeOk = none) →
      pollStep (responses (attempts + k)) completeOk = some (o, c) →
      attempts + k < maxAttempts →
      pollLoopAux responses completeOk fuel attempts = (o, k + 1, c) := by
  intro k
  induction k with
  | zero =>
    intro attempts fuel hfuel hpend hterm hlt
    rw [Nat.add_zero] at hterm hlt
    cases fuel with
    | zero => omega
    | succ fuel =>
      rw [pollLoopAux, if_neg (by omega), hterm]
  | succ k ih =>
    intro attempts fuel hfuel hpend hterm hlt
    cases fuel with
    | zero => omega
    | succ fuel =>
      have h0 : pollStep (responses attempts) completeOk = none := by
        have := hpend 0 (by omega)
        rwa [Nat.add_zero] at this
      rw [pollLoopAux, if_neg (by omega), h0]
      dsimp only
      rw [ih (attempts + 1) fuel (by omega)
        (fun i hi => by
          have := hpend (i + 1) (by omega)
          rwa [show attempts + (i + 1) = attempts + 1 + i by omega] at this)
        (by rwa [show attempts + 1 + k = attempts + (k + 1) by omega])
        (by omega)]

/-- C8: the status-polling loop makes at most 60 status requests, and when
every response stays pending it stops after exactly 60 and reports the
timeout outcome, with no finalize call. -/
theorem c8_polling_bounded (responses : Nat → Except Unit StatusResponse)
    (completeOk : Bool) :
    (pollAuthStatus responses completeOk).2.1 ≤ 60 ∧
    ((∀ i, pollStep (responses i) completeOk = none) →
      pollAuthStatus responses completeOk = (.timeoutError, 60, 0)) := by
  constructor
  · exact pollLoopAux_requests_le responses completeOk maxAttempts 0
  · intro hall
    exact pollLoopAux_all_pending responses completeOk hall maxAttempts 0 rfl

/-- A provider that never completes: every status poll answers pending. -/
def pendingResponses : Nat → Except Unit StatusResponse :=
  fun _ => .ok { status := "pending", authorized := false, message := none }

/-- C8 witness: against the always-pending provider the loop stops after
exactly 60 requests with the timeout outcome. -/
theorem c8_polling_bounded_witness :
    (∀ i, pollStep (pendingResponses i) true = none) ∧
    pollAuthStatus pendingResponses true = (.timeoutError, 60, 0) :=
  ⟨fun _ => rfl, (c8_polling_bounded pendingResponses true).2 (fun _ => rfl)⟩

/-- A provider whose first status response already reports the login
completed but not authorized (roles resolved to the empty set). -/
def unauthorizedResponses : Nat → Except Unit StatusResponse :=
  fun _ => .ok { status := "completed", authorized := false, message := none }

/-- C3: counterexample. When the groups resolve to no role, the client's
loop reports the unauthorized failure directly from the Status poll
response (`status: completed, authorized: false`) and performs zero
finalize (`completeAuth`) calls — the failure is not produced by the
Finalize call as the claim states. -/
theorem c3_counterexample :
    (pollAuthStatus unauthorizedResponses true).1 = .notAuthorizedError ∧
    (pollAuthStatus unauthorizedResponses true).2.2 = 0 ∧
    (pollAuthStatus unauthorizedResponses true).2.1 = 1 := by
  decide

/-- C3 (amended): the unauthorized outcome is reported exactly once, at the
first Status poll that returns `completed` with `authorized = false`: the
loop stops there after `k + 1` requests, never calls the finalize
endpoint, and hence no session is created. -/
theorem c3_unauthorized_at_status_poll (responses : Nat → Except Unit StatusResponse)
    (completeOk : Bool) (k : Nat) (hk : k < maxAttempts)
    (hpend : ∀ i, i < k → pollStep (responses i) completeOk = none)
    (hresp : responses k =
      .ok { status := "completed", authorized := false, message := none }) :
    pollAuthStatus responses completeOk = (.notAuthorizedError, k + 1, 0) := by
  apply pollLoopAux_first_terminal responses completeOk _ _ k 0 maxAttempts rfl
  · intro i hi
    simpa using hpend i hi
  · rw [Nat.zero_add, hresp]
    rfl
  · simpa using hk

/-- A provider that stays pending twice and then reports completed but not
authorized. -/
def lateUnauthorizedResponses : Nat → Except Unit StatusResponse :=
  fun i =>
    if i < 2 then .ok { status := "pending", authorized := false, message := none }
    else .ok { status := "completed", authorized := false, message := none }

/-- C3 (amended) witness: with two pending polls first, the loop reports
the unauthorized outcome after exactly 3 requests and 0 finalize calls. -/
theorem c3_unauthorized_at_status_poll_witness :
    (2 < maxAttempts) ∧
    pollAuthStatus lateUnauthorizedResponses true = (.notAuthorizedError, 3, 0) :=
  ⟨by decide,
    c3_unauthorized_at_status_poll lateUnauthorizedResponses true 2 (by decide)
      (by
        intro i hi
        match i, hi with
        | 0, _ => rfl
        | 1, _ => rfl)
      (by rfl)⟩

/-- Finalize either leaves the session table unchanged or prepends one new
record whose role set is non-empty. -/
theorem finalize_sessions_shape (m : RoleMapping) (s : ServerState)
    (cid fpHash newSid newCsrf : String) (now ttl : Nat) :
    (finalize m s cid fpHash newSid newCsrf now ttl).1.sessions = s.sessions ∨
    ∃ r : SessionRecord,
      (finalize m s cid fpHash newSid newCsrf now ttl).1.sessions =
        (newSid, r) :: s.sessions ∧ r.roles ≠ [] := by
  unfold finalize
  cases hp : lookupPending s cid with
  | none => exact Or.inl rfl
  | some pl =>
    dsimp only
    cases hst : pl.state with
    | completed =>
      dsimp only
      by_cases hroles :
          (resolveRoles m ((pl.principal.map Principal.groupIds).getD [])).isEmpty = true
      · rw [if_pos hroles]
        exact Or.inl rfl
      · rw [if_neg hroles]
        have hne : resolveRoles m ((pl.principal.map Principal.groupIds).getD []) ≠ [] := by
          simpa [List.isEmpty_iff] using hroles
        exact Or.inr ⟨_, rfl, hne⟩
    | expired => exact Or.inl rfl
    | started => exact Or.inl rfl
    | polling => exact Or.inl rfl
    | authorized => exact Or.inl rfl
    | unauthorized => exact Or.inl rfl
    | failed => exact Or.inl rfl

/-- Every record in the session table after a `Touch` carries the role set
of some record that was in the table before it. -/
theorem touch_sessions_roles (s : ServerState) (sid fpHash : String) (now ttl : Nat) :
    ∀ p ∈ (touch s sid fpHash now ttl).1.sessions,
      ∃ q ∈ s.sessions, p.2.roles = q.2.roles := by
  intro p hp
  unfold touch at hp
  cases hl : lookupSession s sid with
  | none =>
    rw [hl] at hp
    dsimp only at hp
    exact ⟨p, hp, rfl⟩
  | some r =>
    rw [hl] at hp
    dsimp only at hp
    by_cases hfp : (r.fingerprintHash == fpHash) = true
    · rw [if_pos hfp] at hp
      dsimp only [updateSession] at hp
      obtain ⟨q, hq, hpq⟩ := List.mem_map.mp hp
      by_cases hqsid : (q.1 == sid) = true
      · rw [if_pos hqsid] at hpq
        unfold lookupSession at hl
        cases hf : s.sessions.find? (fun p => p.1 == sid) with
        | none => rw [hf] at hl; cases hl
        | some q0 =>
          rw [hf] at hl
          have hq0r : q0.2 = r := by simpa using hl
          refine ⟨q0, List.mem_of_find?_eq_some hf, ?_⟩
          rw [← hpq, hq0r]
      · rw [if_neg hqsid] at hpq
        subst hpq
        exact ⟨q, hq, rfl⟩
    · rw [if_neg hfp] at hp
      dsimp only [deleteSession] at hp
      exact ⟨p, List.mem_of_mem_filter hp, rfl⟩

/-- C2: in every server state reachable through start, worker transitions,
finalize and touch, every stored session has a non-empty role set — and,
directly, whenever a pending login in `COMPLETED` resolves to an empty role
set, finalize answers `ErrUnauthorized` and creates no session. -/
theorem c2_no_empty_role_sessions (m : RoleMapping) (s : ServerState)
    (h : Reachable m s) :
    (∀ p ∈ s.sessions, p.2.roles ≠ []) ∧
    (∀ cid fpHash newSid newCsrf now ttl pl,
      lookupPending s cid = some pl → pl.state = .completed →
      resolveRoles m ((pl.principal.map Principal.groupIds).getD []) = [] →
      (finalize m s cid fpHash newSid newCsrf now ttl).2 = .error .unauthorized ∧
      (finalize m s cid fpHash newSid newCsrf now ttl).1.sessions = s.sessions) := by
  constructor
  · induction h with
    | init => intro p hp; cases hp
    | startStep cid deviceCode uri now loginTimeout _ ih =>
      intro p hp
      exact ih p hp
    | workerStep cid ev _ ih =>
      intro p hp
      exact ih p hp
    | finalizeStep cid fpHash newSid newCsrf now ttl _ ih =>
      intro p hp
      rename_i s0 _
      rcases finalize_sessions_shape m s0 cid fpHash newSid newCsrf now ttl with
        hsh | ⟨r, hsh, hr⟩
      · rw [hsh] at hp
        exact ih p hp
      · rw [hsh] at hp
        rcases List.mem_cons.mp hp with hhead | htail
        · rw [hhead]
          exact hr
        · exact ih p htail
    | touchStep sid fpHash now ttl _ ih =>
      intro p hp
      rename_i s0 _
      obtain ⟨q, hq, hroles⟩ := touch_sessions_roles s0 sid fpHash now ttl p hp
      rw [hroles]
      exact ih q hq
  · intro cid fpHash newSid newCsrf now ttl pl hl hst hempty
    unfold finalize
    rw [hl]
    dsimp only
    rw [hst]
    dsimp only
    rw [if_pos (by simp [hempty])]
    exact ⟨rfl, rfl⟩

/-- The mapping used in the C2 witness run. -/
def m0 : RoleMapping := { table := [("g1", "admin")], defaultRole := none }

/-- The approved principal of the C2 witness run. -/
def demoPrincipal : Principal :=
  { userId := "u1", email := "u1@example.com", tenantId := "t1", groupIds := ["g1"] }

/-- The server state after start, provider acceptance, approval and a
successful finalize. -/
def s4 : ServerState :=
  (finalize m0
    (workerTransition
      (workerTransition
        (startLogin { pending := [], sessions := [] } "cid" "dc" "uri" 0 120)
        "cid" .accepts)
      "cid" (.approved demoPrincipal))
    "cid" "fp" "sid1" "csrf1" 10 3600).1

/-- The session record that run creates. -/
def demoRecord : SessionRecord :=
  { sessionId := "sid1", fingerprintHash := "fp", principalId := "u1",
    email := "u1@example.com", roles := ["admin"], csrfToken := "csrf1",
    createdAt := 10, lastSeenAt := 10, expiresAt := 3610 }

/-- C2 witness: the witness run reaches a state holding exactly the created
session, and the invariant instantiated at that session yields its
non-empty role set. -/
theorem c2_no_empty_role_sessions_witness :
    s4.sessions = [("sid1", demoRecord)] ∧ demoRecord.roles ≠ [] :=
  ⟨by decide,
    (c2_no_empty_role_sessions m0 s4
      (Reachable.finalizeStep "cid" "fp" "sid1" "csrf1" 10 3600
        (Reachable.workerStep "cid" (.approved demoPrincipal)
          (Reachable.workerStep "cid" .accepts
            (Reachable.startStep "cid" "dc" "uri" 0 120 Reachable.init))))).1
      ("sid1", demoRecord) (by decide)⟩
